import Mathlib

/-!
Verification of the tool-dispatch core of `mcp-maintainer-toolkit`
(`src/handlers/tools.ts`): the nine zod input schemas, the ListTools
handler, and the CallTool dispatcher.

Modelling conventions:
* JSON / JS values are the inductive `JValue`; JS numbers are `Rat`
  (every numeric literal occurring in the claims is a small integer or a
  dyadic fraction, exactly representable; IEEE-754 rounding is not
  modelled).
* zod schemas are the inductive `Schema`, restricted to exactly the
  combinators the source uses; `parseSchema` is the model of `.parse`,
  returning either the validated value (with defaults filled in) or the
  ordered list of issues a `ZodError` would carry (fields are processed
  in declared order, as zod processes the shape keys of an object).
* The zod library is an external dependency of the repository; its
  `.email()` and `.url()` format checks are modelled by simplified
  decidable predicates.  No theorem below depends on their outcome.
* The CallTool handler is `callTool`; time (`setTimeout`) is not
  modelled, and the progress notifications emitted by an invocation are
  returned as a list, ordered as emitted, all of them emitted before the
  terminal outcome in the second component.
* `Date` and timezone rendering are external collaborators, passed in as
  an `Env` record.
-/

/-- A JSON / JavaScript structured value (no `undefined`: absence of an
object field is represented by absence from the field list). -/
inductive JValue where
  | null : JValue
  | bool : Bool → JValue
  | num : Rat → JValue
  | str : String → JValue
  | arr : List JValue → JValue
  | obj : List (String × JValue) → JValue
deriving Repr

/-- One element of a zod issue path: an object key or an array index. -/
inductive PathElem where
  | key : String → PathElem
  | idx : Nat → PathElem
deriving Repr, DecidableEq

/-- One zod issue: its path and a short code describing the violated
constraint. -/
structure Issue where
  path : List PathElem
  code : String
deriving Repr, DecidableEq

/-- Field lookup in a JS object literal.  JS objects cannot hold two
fields of the same key, so first-match lookup is exact. -/
def lookupField (fields : List (String × JValue)) (k : String) : Option JValue :=
  match fields with
  | [] => none
  | (k', v) :: rest => if k' = k then some v else lookupField rest k

/-- JS property access `row[h]` as used on table rows: `none` models
`undefined`. -/
def jsGet (v : JValue) (k : String) : Option JValue :=
  match v with
  | .obj fields => lookupField fields k
  | _ => none

/-- JS falsiness of a structured value (`0`, `false`, `""` and `null`
are falsy; arrays and objects are always truthy). -/
def jsFalsy (v : JValue) : Bool :=
  match v with
  | .null => true
  | .bool b => !b
  | .num q => q = 0
  | .str s => s = ""
  | .arr _ => false
  | .obj _ => false

/-- `Object.keys` on the values that reach it in `formatAsTable`: the
declared keys of an object, in insertion order; non-objects contribute
no keys (string / array index keys are not modelled — no claim touches
them). -/
def jsObjectKeys (v : JValue) : List String :=
  match v with
  | .obj fields => fields.map Prod.fst
  | _ => []

/-- String conversion of a JS number as in template interpolation.
Faithful for integral values (JS prints them without a decimal point);
a non-integral value prints as `num/den`, a simplification no theorem
below exercises. -/
def jsNumToString (q : Rat) : String :=
  if q.den = 1 then toString q.num
  else toString q.num ++ "/" ++ toString q.den

mutual

/-- JS `String(value)` on a structured value: numbers via
`jsNumToString`, arrays join their elements with a comma, plain objects
render as `[object Object]`. -/
def jsToString (v : JValue) : String :=
  match v with
  | .null => "null"
  | .bool b => if b then "true" else "false"
  | .num q => jsNumToString q
  | .str s => s
  | .arr xs => String.intercalate "," (jsToStringList xs)
  | .obj _ => "[object Object]"

/-- Pointwise `String(·)` over array elements (JS array `toString`
renders `null` elements as the empty string). -/
def jsToStringList (xs : List JValue) : List String :=
  match xs with
  | [] => []
  | .null :: rest => "" :: jsToStringList rest
  | x :: rest => jsToString x :: jsToStringList rest

end

/-- Constraint checks attached to a `z.string()` in the source. -/
inductive StrCheck where
  | minLen : Nat → StrCheck
  | maxLen : Nat → StrCheck
  | email : StrCheck
  | url : StrCheck
  | regexDateYMD : StrCheck
deriving Repr

/-- Constraint checks attached to a `z.number()` in the source. -/
inductive NumCheck where
  | int : NumCheck
  | minVal : Rat → NumCheck
  | positive : NumCheck
deriving Repr

/-- The zod schema combinators the source uses, as a declarative schema
tree (§4.2 of the spec: object / array / primitive / enum / constraint
nodes). -/
inductive Schema where
  | str : List StrCheck → Schema
  | num : List NumCheck → Schema
  | bool : Schema
  | enumOf : List String → Schema
  | any : Schema
  | opt : Schema → Schema
  | withDefault : Schema → JValue → Schema
  | obj : List (String × Schema) → Schema
  | arr : Schema → Option Nat → Schema
deriving Repr

/-- Simplified model of zod's `.email()` check (the exact regex lives in
the external zod library); no theorem depends on its outcome. -/
def isEmailLike (s : String) : Bool :=
  match s.splitOn "@" with
  | [local_, domain] => local_ ≠ "" && domain ≠ "" && domain.contains '.'
  | _ => false

/-- Simplified model of zod's `.url()` check (zod defers to `new URL`);
no theorem depends on its outcome. -/
def isUrlLike (s : String) : Bool :=
  ("http://".isPrefixOf s && s.length > 7) || ("https://".isPrefixOf s && s.length > 8)

/-- Exact model of the `^\d{4}-\d{2}-\d{2}$` date regex. -/
def isDateYMD (s : String) : Bool :=
  let cs := s.toList
  cs.length = 10 &&
    (List.range 10).all fun i =>
      if i = 4 || i = 7 then cs.getD i ' ' = '-' else (cs.getD i ' ').isDigit

/-- Issues raised by one string check on a value already known to be a
string (each leaf issue carries the empty path; the enclosing object or
array field prepends its own path element). -/
def strCheckIssues (c : StrCheck) (s : String) : List Issue :=
  match c with
  | .minLen n => if s.length < n then [⟨[], "too_small"⟩] else []
  | .maxLen n => if s.length > n then [⟨[], "too_big"⟩] else []
  | .email => if isEmailLike s then [] else [⟨[], "invalid_string: email"⟩]
  | .url => if isUrlLike s then [] else [⟨[], "invalid_string: url"⟩]
  | .regexDateYMD => if isDateYMD s then [] else [⟨[], "invalid_string: regex"⟩]

/-- Issues raised by one numeric check on a value already known to be a
number. -/
def numCheckIssues (c : NumCheck) (q : Rat) : List Issue :=
  match c with
  | .int => if q.den = 1 then [] else [⟨[], "invalid_type: expected integer"⟩]
  | .minVal m => if q < m then [⟨[], "too_small"⟩] else []
  | .positive => if 0 < q then [] else [⟨[], "too_small"⟩]

/-- Whether a schema accepts an absent (`undefined`) field without an
issue: `.optional()` and `z.any()` do (a `.default(...)` field is
handled separately, by substituting the default). -/
def acceptsUndefined (s : Schema) : Bool :=
  match s with
  | .opt _ => true
  | .any => true
  | _ => false

/-- Prefix every issue of a field's sub-parse with the field's key, as
zod does when bubbling issues out of an object shape. -/
def underKey (k : String) (issues : List Issue) : List Issue :=
  issues.map fun i => ⟨.key k :: i.path, i.code⟩

/-- Prefix every issue of an element's sub-parse with the element's
array index. -/
def underIdx (n : Nat) (issues : List Issue) : List Issue :=
  issues.map fun i => ⟨.idx n :: i.path, i.code⟩

mutual

/-- Model of zod `.parse`: either the validated value — with defaults
substituted for absent fields — or the full ordered issue list of the
`ZodError` it throws.  Object fields are processed in declared order;
array elements in index order. -/
def parseSchema (s : Schema) (v : JValue) : Except (List Issue) JValue :=
  match s with
  | .str cs =>
    match v with
    | .str x =>
      let issues := cs.flatMap fun c => strCheckIssues c x
      if issues.isEmpty then .ok (.str x) else .error issues
    | _ => .error [⟨[], "invalid_type: expected string"⟩]
  | .num cs =>
    match v with
    | .num q =>
      let issues := cs.flatMap fun c => numCheckIssues c q
      if issues.isEmpty then .ok (.num q) else .error issues
    | _ => .error [⟨[], "invalid_type: expected number"⟩]
  | .bool =>
    match v with
    | .bool b => .ok (.bool b)
    | _ => .error [⟨[], "invalid_type: expected boolean"⟩]
  | .enumOf opts =>
    match v with
    | .str x => if opts.contains x then .ok (.str x) else .error [⟨[], "invalid_enum_value"⟩]
    | _ => .error [⟨[], "invalid_type: expected enum value"⟩]
  | .any => .ok v
  | .opt s' => parseSchema s' v
  | .withDefault s' _ => parseSchema s' v
  | .obj fieldSchemas =>
    match v with
    | .obj fields =>
      let r := parseFields fieldSchemas fields
      if r.1.isEmpty then .ok (.obj r.2) else .error r.1
    | _ => .error [⟨[], "invalid_type: expected object"⟩]
  | .arr elemS minLen? =>
    match v with
    | .arr xs =>
      let lenIssues : List Issue :=
        match minLen? with
        | some m => if xs.length < m then [⟨[], "too_small"⟩] else []
        | none => []
      let results := xs.map fun x => parseSchema elemS x
      let elemIssues := results.enum.flatMap fun p =>
        match p.2 with
        | .ok _ => []
        | .error issues => underIdx p.1 issues
      let outputs := results.flatMap fun r =>
        match r with
        | .ok x' => [x']
        | .error _ => []
      let issues := lenIssues ++ elemIssues
      if issues.isEmpty then .ok (.arr outputs) else .error issues
    | _ => .error [⟨[], "invalid_type: expected array"⟩]
termination_by structural s

/-- Process an object shape's fields in declared order, returning the
collected issues and the validated output fields. -/
def parseFields (fieldSchemas : List (String × Schema)) (fields : List (String × JValue)) :
    List Issue × List (String × JValue) :=
  match fieldSchemas with
  | [] => ([], [])
  | (k, s) :: rest =>
    let tail := parseFields rest fields
    match lookupField fields k with
    | none =>
      match s with
      | .withDefault _ d => (tail.1, (k, d) :: tail.2)
      | s' =>
        if acceptsUndefined s' then tail
        else (⟨[PathElem.key k], "invalid_type: required"⟩ :: tail.1, tail.2)
    | some v =>
      match parseSchema s v with
      | .ok v' => (tail.1, (k, v') :: tail.2)
      | .error issues => (underKey k issues ++ tail.1, tail.2)
termination_by structural fieldSchemas

end

/-! The nine tool input schemas, translated combinator for combinator
from `src/handlers/tools.ts`. -/

/-- Schema of `echo`. -/
def EchoSchema : Schema := .obj [("message", .str [])]

/-- Schema of `add`. -/
def AddSchema : Schema := .obj [("a", .num []), ("b", .num [])]

/-- Schema of `getCurrentTime`. -/
def GetCurrentTimeSchema : Schema := .obj [("timezone", .opt (.str []))]

/-- Schema of `formatData`. -/
def FormatDataSchema : Schema :=
  .obj [("data", .any),
        ("format", .withDefault (.enumOf ["json", "yaml", "table"]) (.str "json"))]

/-- Schema of `longRunningTask`. -/
def LongRunningTaskSchema : Schema :=
  .obj [("duration", .withDefault (.num []) (.num 5)),
        ("steps", .withDefault (.num []) (.num 3)),
        ("taskName", .withDefault (.str []) (.str "Processing"))]

/-- Schema of `annotatedResponse`. -/
def AnnotatedResponseSchema : Schema :=
  .obj [("messageType", .enumOf ["info", "warning", "error", "success"]),
        ("includeMetadata", .withDefault .bool (.bool true))]

/-- Schema of `complexOrder` (Issue #332): nested objects and arrays. -/
def ComplexOrderSchema : Schema :=
  .obj [("customerName", .str []),
        ("customerTaxId", .str []),
        ("customerEmail", .str [.email]),
        ("shippingAddress", .obj
          [("street", .str []),
           ("city", .str []),
           ("state", .str []),
           ("zipCode", .str []),
           ("country", .withDefault (.str []) (.str "US"))]),
        ("items", .arr (.obj
          [("productName", .str []),
           ("productSku", .str []),
           ("quantity", .num [.minVal 1]),
           ("unitPrice", .num [.minVal 0]),
           ("category", .enumOf ["electronics", "clothing", "books", "home", "other"]),
           ("metadata", .opt (.obj
             [("weight", .opt (.num [])),
              ("dimensions", .opt (.obj
                [("length", .num []),
                 ("width", .num []),
                 ("height", .num [])]))]))]) (some 1)),
        ("discounts", .opt (.arr (.obj
          [("code", .str []),
           ("amount", .num []),
           ("type", .enumOf ["percentage", "fixed"])]) none)),
        ("total", .num [.minVal 0]),
        ("notes", .opt (.str []))]

/-- Schema of `strictTypeValidation` (Issue #187), as the declared field
list (the declaration order of the fields is what claim C6 is about). -/
def strictFields : List (String × Schema) :=
  [("stringField", .str [.minLen 1]),
   ("numberField", .num []),
   ("integerField", .num [.int]),
   ("booleanField", .bool),
   ("emailField", .str [.email]),
   ("urlField", .str [.url]),
   ("enumField", .enumOf ["option1", "option2", "option3"]),
   ("dateField", .str [.regexDateYMD]),
   ("positiveNumber", .num [.positive]),
   ("stringWithLength", .str [.minLen 5, .maxLen 20])]

/-- Schema of `strictTypeValidation`. -/
def StrictTypeValidationSchema : Schema := .obj strictFields

/-- Schema of `unionTypeTest` (Issue #672). -/
def UnionTypeTestSchema : Schema :=
  .obj [("optionalString", .opt (.str [])),
        ("optionalNumber", .opt (.num [])),
        ("optionalBoolean", .opt .bool),
        ("requiredString", .str [])]

/-! The `ToolName` enum. -/

namespace ToolName

def ECHO : String := "echo"

def ADD : String := "add"

def GET_CURRENT_TIME : String := "getCurrentTime"

def FORMAT_DATA : String := "formatData"

def LONG_RUNNING_TASK : String := "longRunningTask"

def ANNOTATED_RESPONSE : String := "annotatedResponse"

def COMPLEX_ORDER : String := "complexOrder"

def STRICT_TYPE_VALIDATION : String := "strictTypeValidation"

def UNION_TYPE_TEST : String := "unionTypeTest"

end ToolName

/-- The nine registered tool names, in registration order. -/
def toolNames : List String :=
  [ToolName.ECHO, ToolName.ADD, ToolName.GET_CURRENT_TIME, ToolName.FORMAT_DATA,
   ToolName.LONG_RUNNING_TASK, ToolName.ANNOTATED_RESPONSE, ToolName.COMPLEX_ORDER,
   ToolName.STRICT_TYPE_VALIDATION, ToolName.UNION_TYPE_TEST]

/-- One entry of the ListTools response: name, description, and its
input schema (`zodToJsonSchema` rendering of the schema is owned by an
external library; the schema itself is the content). -/
structure ToolDef where
  name : String
  description : String
  inputSchema : Schema

/-- The ListTools handler: a fixed list built in registration order;
pure, so trivially free of side effects and identical across calls. -/
def listTools : List ToolDef :=
  [⟨ToolName.ECHO, "Echoes back the input message", EchoSchema⟩,
   ⟨ToolName.ADD, "Adds two numbers together", AddSchema⟩,
   ⟨ToolName.GET_CURRENT_TIME, "Gets the current date and time", GetCurrentTimeSchema⟩,
   ⟨ToolName.FORMAT_DATA, "Formats data in different output formats", FormatDataSchema⟩,
   ⟨ToolName.LONG_RUNNING_TASK, "Demonstrates a long-running task with progress updates",
    LongRunningTaskSchema⟩,
   ⟨ToolName.ANNOTATED_RESPONSE, "Demonstrates annotated responses with metadata",
    AnnotatedResponseSchema⟩,
   ⟨ToolName.COMPLEX_ORDER, "Tests complex nested objects and arrays (Issue #332)",
    ComplexOrderSchema⟩,
   ⟨ToolName.STRICT_TYPE_VALIDATION, "Tests strict type validation and error handling (Issue #187)",
    StrictTypeValidationSchema⟩,
   ⟨ToolName.UNION_TYPE_TEST, "Tests union type support for optional parameters (PR #673)",
    UnionTypeTestSchema⟩]

/-- Rendering of one table cell: `String(row[h] || "")` — an absent key
(`undefined`) and every falsy value render as the empty string. -/
def tableCell (row : JValue) (h : String) : String :=
  match jsGet row h with
  | none => ""
  | some v => if jsFalsy v then "" else jsToString v

/-- The `formatAsTable` helper.  The source accumulates the table with
string `+=` in a loop; concatenating the per-row strings is the same
computation. -/
def formatAsTable (data : JValue) : String :=
  match data with
  | .arr [] => "Empty array"
  | .arr (r0 :: rest) =>
    let headers := jsObjectKeys r0
    String.intercalate " | " headers ++ "\n" ++
      String.intercalate " | " (headers.map fun _ => "---") ++ "\n" ++
      String.join ((r0 :: rest).map fun row =>
        String.intercalate " | " (headers.map fun h => tableCell row h) ++ "\n")
  | .obj entries =>
    "Key | Value\n--- | ---\n" ++
      String.join (entries.map fun kv => kv.1 ++ " | " ++ jsToString kv.2 ++ "\n")
  | v => jsToString v

mutual

/-- The recursive `yamlify` helper of `formatAsYaml`.  Array items are
rendered at indent 0 (as in the source); a value that is an object or an
array (JS `typeof value === 'object' && value !== null`) nests under its
key. -/
def yamlify (v : JValue) (indent : Nat) : String :=
  match v with
  | .arr xs => String.intercalate "\n" (yamlifyItems (String.join (List.replicate indent "  ")) xs)
  | .obj entries =>
    String.intercalate "\n" (yamlifyEntries (String.join (List.replicate indent "  ")) entries indent)
  | x => jsToString x

/-- Array items of `yamlify`: each is `spaces ++ "- " ++ yamlify item 0`. -/
def yamlifyItems (spaces : String) (xs : List JValue) : List String :=
  match xs with
  | [] => []
  | x :: rest => (spaces ++ "- " ++ yamlify x 0) :: yamlifyItems spaces rest

/-- Object entries of `yamlify`. -/
def yamlifyEntries (spaces : String) (entries : List (String × JValue)) (indent : Nat) :
    List String :=
  match entries with
  | [] => []
  | (k, val) :: rest =>
    (match val with
     | .arr _ => spaces ++ k ++ ":\n" ++ yamlify val (indent + 1)
     | .obj _ => spaces ++ k ++ ":\n" ++ yamlify val (indent + 1)
     | _ => spaces ++ k ++ ": " ++ jsToString val) :: yamlifyEntries spaces rest indent

end

/-- The `formatAsYaml` helper. -/
def formatAsYaml (data : JValue) : String := yamlify data 0

/-- JSON string escaping of one character (the common escapes; rare
control characters pass through — no theorem exercises them). -/
def jsonEscapeChar (c : Char) : String :=
  if c = '"' then "\\\""
  else if c = '\\' then "\\\\"
  else if c = '\n' then "\\n"
  else if c = '\t' then "\\t"
  else if c = '\r' then "\\r"
  else String.singleton c

/-- JSON quoting of a string value. -/
def jsonQuote (s : String) : String :=
  "\"" ++ String.join (s.toList.map jsonEscapeChar) ++ "\""

mutual

/-- Model of `JSON.stringify(v, null, 2)` at nesting depth `indent`. -/
def jsonStringify (v : JValue) (indent : Nat) : String :=
  match v with
  | .null => "null"
  | .bool b => if b then "true" else "false"
  | .num q => jsNumToString q
  | .str s => jsonQuote s
  | .arr [] => "[]"
  | .arr (x :: xs) =>
    "[\n" ++
      String.intercalate ",\n"
        (jsonItems (x :: xs) (indent + 1) (String.join (List.replicate (indent + 1) "  "))) ++
      "\n" ++ String.join (List.replicate indent "  ") ++ "]"
  | .obj [] => "\x7b\x7d"
  | .obj (e :: es) =>
    "\x7b\n" ++
      String.intercalate ",\n"
        (jsonEntries (e :: es) (indent + 1) (String.join (List.replicate (indent + 1) "  "))) ++
      "\n" ++ String.join (List.replicate indent "  ") ++ "\x7d"

/-- Indented array items of `jsonStringify`. -/
def jsonItems (xs : List JValue) (indent : Nat) (pad : String) : List String :=
  match xs with
  | [] => []
  | x :: rest => (pad ++ jsonStringify x indent) :: jsonItems rest indent pad

/-- Indented object entries of `jsonStringify`. -/
def jsonEntries (entries : List (String × JValue)) (indent : Nat) (pad : String) : List String :=
  match entries with
  | [] => []
  | (k, v) :: rest =>
    (pad ++ jsonQuote k ++ ": " ++ jsonStringify v indent) :: jsonEntries rest indent pad

end

/-- JSON.stringify applied to a possibly-undefined value: stringifying
`undefined` yields the value `undefined`, which the enclosing template
literal renders as the text `undefined`. -/
def jsonStringifyTop (v : Option JValue) : String :=
  match v with
  | none => "undefined"
  | some x => jsonStringify x 0

/-- `formatAsYaml` applied to a possibly-undefined value. -/
def formatAsYamlTop (v : Option JValue) : String :=
  match v with
  | none => "undefined"
  | some x => formatAsYaml x

/-- `formatAsTable` applied to a possibly-undefined value. -/
def formatAsTableTop (v : Option JValue) : String :=
  match v with
  | none => "undefined"
  | some x => formatAsTable x

/-- `String(·)` applied to a possibly-undefined value. -/
def jsToStringTop (v : Option JValue) : String :=
  match v with
  | none => "undefined"
  | some x => jsToString x

/-- Annotation metadata on a content block (§3 of the spec: priority,
audience, plus the extra keys the handler attaches). -/
structure Annotations where
  priority : Rat
  audience : List String
  messageType : Option String
  category : Option String
deriving Repr

/-- One content block of a success Result. -/
structure ContentBlock where
  type : String
  text : String
  annotations : Option Annotations
deriving Repr

/-- The outcome of one CallTool invocation as observed by the caller:
the success Result, or the `ZodError` thrown by `.parse`, or a generic
`Error` — the latter two are caught at the protocol-library boundary and
surfaced as a structured error result, never as a transport fault. -/
inductive ToolOutcome where
  | success : List ContentBlock → ToolOutcome
  | validationError : List Issue → ToolOutcome
  | error : String → ToolOutcome
deriving Repr

/-- One `notifications/progress` notification. -/
structure ProgressNotification where
  progressToken : JValue
  progress : Rat
  total : Rat
deriving Repr

/-- External collaborators of the handlers: `Date` rendering for
`getCurrentTime` (`tzTimeString tz = none` models `toLocaleString`
throwing on an invalid timezone) and the ISO timestamp used by
`annotatedResponse`. -/
structure Env where
  localTimeString : String
  tzTimeString : String → Option String
  isoNow : String

/-- Read a string field out of a validated object (total; the junk
default is unreachable once the schema guaranteed the shape). -/
def getStrField (v : JValue) (k : String) : String :=
  match jsGet v k with
  | some (.str s) => s
  | _ => ""

/-- Read a numeric field out of a validated object. -/
def getNumField (v : JValue) (k : String) : Rat :=
  match jsGet v k with
  | some (.num q) => q
  | _ => 0

/-- Read a boolean field out of a validated object. -/
def getBoolField (v : JValue) (k : String) : Bool :=
  match jsGet v k with
  | some (.bool b) => b
  | _ => false

/-- Number of iterations of `for (let i = 1; i <= steps; i++)` for a JS
number `steps`: none when `steps < 1`, otherwise `⌊steps⌋`. -/
def loopCount (steps : Rat) : Nat :=
  if steps < 1 then 0 else steps.floor.toNat

/-- The notification of loop iteration `i + 1` (iterations are counted
from 1 in the source loop): `progress = i + 1`, `total = steps`. -/
def progressNotif (t : JValue) (steps : Rat) (i : ℕ) : ProgressNotification :=
  ⟨t, (i : Rat) + 1, steps⟩

/-- The progress notifications emitted by the `longRunningTask` loop, in
emission order: one per iteration carrying `progress = i` and
`total = steps`, and none at all when no progress token was supplied on
the invocation (`progressToken !== undefined` fails). -/
def longRunningNotifs (progressToken : Option JValue) (steps : Rat) :
    List ProgressNotification :=
  match progressToken with
  | none => []
  | some t => (List.range (loopCount steps)).map (progressNotif t steps)

/-- The `priorities` lookup table of `annotatedResponse` (total on
strings; only the four enum-validated keys are reachable). -/
def priorityFor (messageType : String) : Rat :=
  if messageType = "info" then 0.5
  else if messageType = "warning" then 0.7
  else if messageType = "error" then 1
  else 0.6

/-- The `audiences` lookup table of `annotatedResponse`. -/
def audienceFor (messageType : String) : List String :=
  if messageType = "info" then ["user", "assistant"]
  else if messageType = "warning" then ["user"]
  else if messageType = "error" then ["user", "assistant"]
  else ["user"]

/-- The CallTool dispatcher (`CallToolRequestSchema` handler): the
if-chain over the nine tool names, each branch validating its arguments
with its schema and running the tool body.  Returned are the progress
notifications in emission order — all emitted before the terminal
outcome — and the outcome itself. -/
def callTool (env : Env) (name : String) (args : JValue)
    (progressToken : Option JValue) : List ProgressNotification × ToolOutcome :=
  if name = ToolName.ECHO then
    match parseSchema EchoSchema args with
    | .error issues => ([], .validationError issues)
    | .ok v => ([], .success [⟨"text", "Echo: " ++ getStrField v "message", none⟩])
  else if name = ToolName.ADD then
    match parseSchema AddSchema args with
    | .error issues => ([], .validationError issues)
    | .ok v =>
      let a := getNumField v "a"
      let b := getNumField v "b"
      let sum := a + b
      ([], .success [⟨"text", "The sum of " ++ jsNumToString a ++ " and " ++
        jsNumToString b ++ " is " ++ jsNumToString sum ++ ".", none⟩])
  else if name = ToolName.GET_CURRENT_TIME then
    match parseSchema GetCurrentTimeSchema args with
    | .error issues => ([], .validationError issues)
    | .ok v =>
      match jsGet v "timezone" with
      | some (.str tz) =>
        if tz ≠ "" then
          match env.tzTimeString tz with
          | some t =>
            ([], .success [⟨"text", "Current time: " ++ t ++ " (" ++ tz ++ ")", none⟩])
          | none => ([], .error ("Invalid timezone: " ++ tz))
        else
          ([], .success [⟨"text",
            "Current time: " ++ env.localTimeString ++ " (local timezone)", none⟩])
      | _ =>
        ([], .success [⟨"text",
          "Current time: " ++ env.localTimeString ++ " (local timezone)", none⟩])
  else if name = ToolName.FORMAT_DATA then
    match parseSchema FormatDataSchema args with
    | .error issues => ([], .validationError issues)
    | .ok v =>
      let fmt := getStrField v "format"
      let formatted :=
        if fmt = "json" then jsonStringifyTop (jsGet v "data")
        else if fmt = "yaml" then formatAsYamlTop (jsGet v "data")
        else if fmt = "table" then formatAsTableTop (jsGet v "data")
        else jsToStringTop (jsGet v "data")
      ([], .success [⟨"text",
        "Data formatted as " ++ fmt ++ ":\n\n" ++ formatted, none⟩])
  else if name = ToolName.LONG_RUNNING_TASK then
    match parseSchema LongRunningTaskSchema args with
    | .error issues => ([], .validationError issues)
    | .ok v =>
      let duration := getNumField v "duration"
      let steps := getNumField v "steps"
      let taskName := getStrField v "taskName"
      let _stepDuration := duration / steps
      (longRunningNotifs progressToken steps,
       .success [⟨"text", taskName ++ " completed! Duration: " ++
         jsNumToString duration ++ " seconds, Steps: " ++ jsNumToString steps ++ ".", none⟩])
  else if name = ToolName.ANNOTATED_RESPONSE then
    match parseSchema AnnotatedResponseSchema args with
    | .error issues => ([], .validationError issues)
    | .ok v =>
      let messageType := getStrField v "messageType"
      let includeMetadata := getBoolField v "includeMetadata"
      let msgBlock : ContentBlock :=
        ⟨"text", "This is a " ++ messageType ++ " message demonstrating annotations.",
         some ⟨priorityFor messageType, audienceFor messageType, some messageType, none⟩⟩
      let metaBlock : ContentBlock :=
        ⟨"text", "Metadata: Generated at " ++ env.isoNow,
         some ⟨0.2, ["assistant"], none, some "metadata"⟩⟩
      ([], .success (msgBlock :: if includeMetadata then [metaBlock] else []))
  else if name = ToolName.COMPLEX_ORDER then
    match parseSchema ComplexOrderSchema args with
    | .error issues => ([], .validationError issues)
    | .ok v =>
      let itemCount :=
        match jsGet v "items" with
        | some (.arr xs) => xs.length
        | _ => 0
      ([], .success [⟨"text", "Complex order processed successfully for " ++
        getStrField v "customerName" ++ ". Total: $" ++
        jsNumToString (getNumField v "total") ++ ". Items: " ++ toString itemCount, none⟩])
  else if name = ToolName.STRICT_TYPE_VALIDATION then
    match parseSchema StrictTypeValidationSchema args with
    | .error issues => ([], .validationError issues)
    | .ok v =>
      ([], .success [⟨"text", "All fields validated successfully. String: \"" ++
        getStrField v "stringField" ++ "\", Number: " ++
        jsNumToString (getNumField v "numberField") ++ ", Integer: " ++
        jsNumToString (getNumField v "integerField"), none⟩])
  else if name = ToolName.UNION_TYPE_TEST then
    match parseSchema UnionTypeTestSchema args with
    | .error issues => ([], .validationError issues)
    | .ok v =>
      let optionals : List String :=
        (match jsGet v "optionalString" with
         | some (.str s) => ["optionalString: \"" ++ s ++ "\""]
         | _ => []) ++
        (match jsGet v "optionalNumber" with
         | some (.num q) => ["optionalNumber: " ++ jsNumToString q]
         | _ => []) ++
        (match jsGet v "optionalBoolean" with
         | some (.bool b) => ["optionalBoolean: " ++ (if b then "true" else "false")]
         | _ => [])
      let optionalText :=
        if optionals.length > 0 then
          "Optional parameters provided: " ++ String.intercalate ", " optionals
        else "No optional parameters provided"
      ([], .success [⟨"text", "Union type test completed! Required: \"" ++
        getStrField v "requiredString" ++ "\". " ++ optionalText, none⟩])
  else
    ([], .error ("Unknown tool: " ++ name))

/-- The issues contributed by one declared field of an object shape
(the per-field step of `parseFields`). -/
def fieldIssues (fields : List (String × JValue)) (p : String × Schema) : List Issue :=
  match lookupField fields p.1 with
  | none =>
    match p.2 with
    | .withDefault _ _ => []
    | s' =>
      if acceptsUndefined s' then []
      else [⟨[PathElem.key p.1], "invalid_type: required"⟩]
  | some v =>
    match parseSchema p.2 v with
    | .ok _ => []
    | .error issues => underKey p.1 issues

/-- All issues of an object shape: the per-field blocks concatenated in
declared field order. -/
def allFieldIssues (fieldSchemas : List (String × Schema))
    (fields : List (String × JValue)) : List Issue :=
  match fieldSchemas with
  | [] => []
  | p :: rest => fieldIssues fields p ++ allFieldIssues rest fields

/-- Leaf schema nodes (string / number / boolean / enum): every issue
they raise is rooted at the empty path. -/
def isLeaf (s : Schema) : Bool :=
  match s with
  | .str _ => true
  | .num _ => true
  | .bool => true
  | .enumOf _ => true
  | _ => false

/-! Helper lemmas. -/

/-- Unfolding of the `longRunningTask` branch of the dispatcher. -/
theorem callTool_longRunning (env : Env) (d q : Rat) (s : String) (tok : Option JValue) :
    callTool env ToolName.LONG_RUNNING_TASK
      (.obj [("duration", .num d), ("steps", .num q), ("taskName", .str s)]) tok =
      (longRunningNotifs tok q,
       .success [⟨"text", s ++ " completed! Duration: " ++ jsNumToString d ++
         " seconds, Steps: " ++ jsNumToString q ++ ".", none⟩]) := rfl

/-- The JS loop `for (let i = 1; i <= steps; i++)` runs exactly `n`
times when `steps` is the natural number `n`. -/
theorem loopCount_natCast (n : ℕ) : loopCount (n : Rat) = n := by
  unfold loopCount
  rcases Nat.eq_zero_or_pos n with rfl | hpos
  · norm_num
  · rw [if_neg (not_lt.mpr (by exact_mod_cast hpos))]
    rw [Rat.floor_def']
    simp

/-! Claim theorems. -/

/-- C5: the list-tools operation is a pure computation, hence
side-effect free and identical across calls; it returns exactly the
nine registered tools, in registration order `echo`, `add`,
`getCurrentTime`, `formatData`, `longRunningTask`, `annotatedResponse`,
`complexOrder`, `strictTypeValidation`, `unionTypeTest`. -/
theorem listTools_spec :
    listTools.map ToolDef.name =
      ["echo", "add", "getCurrentTime", "formatData", "longRunningTask",
       "annotatedResponse", "complexOrder", "strictTypeValidation", "unionTypeTest"] ∧
    listTools.map ToolDef.name = toolNames ∧ listTools.length = 9 :=
  ⟨rfl, rfl, rfl⟩

/-- C2: for every pair of numbers `a`, `b`, the `add` tool returns a
success Result with a single text block stating their sum, namely
`The sum of a and b is (a+b).`; in particular at `a = 2`, `b = 3` the
text contains the literal substring `5`. -/
theorem add_sum_spec :
    (∀ (env : Env) (a b : Rat) (tok : Option JValue),
      callTool env ToolName.ADD (JValue.obj [("a", .num a), ("b", .num b)]) tok =
        ([], .success [⟨"text", "The sum of " ++ jsNumToString a ++ " and " ++
          jsNumToString b ++ " is " ++ jsNumToString (a + b) ++ ".", none⟩])) ∧
    (∀ (env : Env) (tok : Option JValue),
      callTool env ToolName.ADD (JValue.obj [("a", .num 2), ("b", .num 3)]) tok =
        ([], .success [⟨"text", "The sum of 2 and 3 is 5.", none⟩])) ∧
    (∀ (env : Env) (tok : Option JValue), ∃ pre post : String,
      callTool env ToolName.ADD (JValue.obj [("a", .num 2), ("b", .num 3)]) tok =
        ([], .success [⟨"text", pre ++ "5" ++ post, none⟩])) := by
  have key : ∀ (env : Env) (tok : Option JValue),
      callTool env ToolName.ADD (JValue.obj [("a", .num 2), ("b", .num 3)]) tok =
        ([], .success [⟨"text", "The sum of 2 and 3 is 5.", none⟩]) := by
    intro env tok
    have h : callTool env ToolName.ADD (JValue.obj [("a", .num 2), ("b", .num 3)]) tok =
        ([], .success [⟨"text", "The sum of " ++ jsNumToString 2 ++ " and " ++
          jsNumToString 3 ++ " is " ++ jsNumToString ((2 : Rat) + 3) ++ ".", none⟩]) := rfl
    rw [h]
    norm_num
    rfl
  exact ⟨fun _ _ _ _ => rfl, key,
    fun env tok => ⟨"The sum of 2 and 3 is ", ".", by rw [key env tok]; rfl⟩⟩

/-- C10: invoking `longRunningTask` with `steps = 0` executes the step
loop zero times: zero progress notifications are emitted even when a
progress token is supplied, and the terminal success Result is returned
immediately.  The division `duration / steps` (kept in the model as
`_stepDuration`) cannot fail: JS division is total (`duration / 0` is
`Infinity`), and its quotient is consumed only by the per-step timer
inside the unreachable loop body. -/
theorem longRunningTask_zero_steps_spec :
    ∀ (env : Env) (d : Rat) (tok : Option JValue),
      callTool env ToolName.LONG_RUNNING_TASK
        (.obj [("duration", .num d), ("steps", .num 0)]) tok =
      ([], .success [⟨"text", "Processing" ++ " completed! Duration: " ++ jsNumToString d ++
        " seconds, Steps: " ++ jsNumToString 0 ++ ".", none⟩]) := by
  intro env d tok
  cases tok <;> rfl

/-- C7: validation fills declared defaults in before the handler runs:
`formatData` without `format` behaves exactly as with `format = "json"`
and its output text begins `Data formatted as json:`; `longRunningTask`
invoked with no arguments behaves exactly as with `duration = 5`,
`steps = 3`, `taskName = "Processing"`. -/
theorem defaults_applied_spec :
    (∀ (env : Env) (d : JValue) (tok : Option JValue),
      callTool env ToolName.FORMAT_DATA (.obj [("data", d)]) tok =
        callTool env ToolName.FORMAT_DATA
          (.obj [("data", d), ("format", .str "json")]) tok ∧
      callTool env ToolName.FORMAT_DATA (.obj [("data", d)]) tok =
        ([], .success [⟨"text",
          "Data formatted as json:\n\n" ++ jsonStringify d 0, none⟩])) ∧
    (∀ (env : Env) (tok : Option JValue),
      callTool env ToolName.LONG_RUNNING_TASK (.obj []) tok =
        callTool env ToolName.LONG_RUNNING_TASK
          (.obj [("duration", .num 5), ("steps", .num 3), ("taskName", .str "Processing")])
          tok) := by
  refine ⟨fun env d tok => ⟨rfl, ?_⟩, fun _ _ => rfl⟩
  have h : callTool env ToolName.FORMAT_DATA (.obj [("data", d)]) tok =
      ([], .success [⟨"text",
        "Data formatted as " ++ ("json" ++ (":\n\n" ++ jsonStringify d 0)), none⟩]) := rfl
  rw [h, ← String.append_assoc, ← String.append_assoc]
  rfl

/-- C4: invoking any name outside the nine registered tool names falls
through the dispatcher's if-chain and fails with the error message
`Unknown tool: <name>` — the `NotFoundError` of the spec, surfaced to
the caller as a recoverable error outcome, not a transport fault. -/
theorem unknown_tool_spec (name : String) (h : name ∉ toolNames) :
    ∀ (env : Env) (args : JValue) (tok : Option JValue),
      callTool env name args tok = ([], .error ("Unknown tool: " ++ name)) := by
  intro env args tok
  simp only [toolNames, ToolName.ECHO, ToolName.ADD, ToolName.GET_CURRENT_TIME,
    ToolName.FORMAT_DATA, ToolName.LONG_RUNNING_TASK, ToolName.ANNOTATED_RESPONSE,
    ToolName.COMPLEX_ORDER, ToolName.STRICT_TYPE_VALIDATION, ToolName.UNION_TYPE_TEST,
    List.mem_cons, List.not_mem_nil, or_false, not_or] at h
  obtain ⟨h1, h2, h3, h4, h5, h6, h7, h8, h9⟩ := h
  simp only [callTool, ToolName.ECHO, ToolName.ADD, ToolName.GET_CURRENT_TIME,
    ToolName.FORMAT_DATA, ToolName.LONG_RUNNING_TASK, ToolName.ANNOTATED_RESPONSE,
    ToolName.COMPLEX_ORDER, ToolName.STRICT_TYPE_VALIDATION, ToolName.UNION_TYPE_TEST,
    h1, h2, h3, h4, h5, h6, h7, h8, h9, if_false]

/-- Witness for C4 at the unregistered name `doesNotExist`. -/
theorem unknown_tool_spec_witness :
    callTool ⟨"", fun _ => none, ""⟩ "doesNotExist" (.obj []) none =
      ([], .error ("Unknown tool: " ++ "doesNotExist")) :=
  unknown_tool_spec "doesNotExist" (by decide) ⟨"", fun _ => none, ""⟩ (.obj []) none

/-- C1: invoking `longRunningTask` with `steps = n` (`n ≥ 1`) and a
caller-supplied progress token emits exactly `n` progress notifications
carrying `progress = 1, 2, ..., n` and `total = n` (hence non-decreasing
with the final notification's progress equal to the total), all of them
emitted before the terminal success Result (the first component of the
dispatcher's output lists the notifications in emission order, all
preceding the outcome in the second component); without a progress
token, zero notifications are emitted. -/
theorem longRunningTask_progress_spec (env : Env) (d : Rat) (s : String) (n : ℕ)
    (hn : 1 ≤ n) (t : JValue) :
    callTool env ToolName.LONG_RUNNING_TASK
        (.obj [("duration", .num d), ("steps", .num (n : Rat)), ("taskName", .str s)])
        (some t) =
      ((List.range n).map (progressNotif t (n : Rat)),
       .success [⟨"text", s ++ " completed! Duration: " ++ jsNumToString d ++
         " seconds, Steps: " ++ jsNumToString (n : Rat) ++ ".", none⟩]) ∧
    (callTool env ToolName.LONG_RUNNING_TASK
        (.obj [("duration", .num d), ("steps", .num (n : Rat)), ("taskName", .str s)])
        (some t)).1.length = n ∧
    (callTool env ToolName.LONG_RUNNING_TASK
        (.obj [("duration", .num d), ("steps", .num (n : Rat)), ("taskName", .str s)])
        (some t)).1.getLast? = some ⟨t, (n : Rat), (n : Rat)⟩ ∧
    callTool env ToolName.LONG_RUNNING_TASK
        (.obj [("duration", .num d), ("steps", .num (n : Rat)), ("taskName", .str s)])
        none =
      ([], .success [⟨"text", s ++ " completed! Duration: " ++ jsNumToString d ++
         " seconds, Steps: " ++ jsNumToString (n : Rat) ++ ".", none⟩]) := by
  have hmain : callTool env ToolName.LONG_RUNNING_TASK
      (.obj [("duration", .num d), ("steps", .num (n : Rat)), ("taskName", .str s)])
      (some t) =
      ((List.range n).map (progressNotif t (n : Rat)),
       .success [⟨"text", s ++ " completed! Duration: " ++ jsNumToString d ++
         " seconds, Steps: " ++ jsNumToString (n : Rat) ++ ".", none⟩]) := by
    rw [callTool_longRunning,
      show longRunningNotifs (some t) (n : Rat) =
          (List.range (loopCount (n : Rat))).map (progressNotif t (n : Rat)) from rfl,
      loopCount_natCast]
  refine ⟨hmain, ?_, ?_, ?_⟩
  · rw [hmain]
    simp
  · rw [hmain]
    obtain ⟨m, rfl⟩ : ∃ m, n = m + 1 := ⟨n - 1, by omega⟩
    rw [List.range_succ, List.map_append]
    simp only [List.map_cons, List.map_nil, List.getLast?_concat, Option.some.injEq]
    norm_num [progressNotif]
  · rw [callTool_longRunning]
    rfl

/-- Witness for C1 at `duration = 3`, `steps = 3`, a supplied token. -/
theorem longRunningTask_progress_witness :
    callTool ⟨"", fun _ => none, ""⟩ ToolName.LONG_RUNNING_TASK
        (.obj [("duration", .num 3), ("steps", .num ((3 : ℕ) : Rat)),
               ("taskName", .str "Processing")]) (some (.str "tok7")) =
      ((List.range 3).map (progressNotif (.str "tok7") ((3 : ℕ) : Rat)),
       .success [⟨"text", "Processing" ++ " completed! Duration: " ++ jsNumToString 3 ++
         " seconds, Steps: " ++ jsNumToString ((3 : ℕ) : Rat) ++ ".", none⟩]) :=
  (longRunningTask_progress_spec ⟨"", fun _ => none, ""⟩ 3 "Processing" 3
    (by norm_num) (.str "tok7")).1

/-- C8: every `annotatedResponse` invocation produces content in the
handler's production order — the primary message block first, and a
metadata block second exactly when `includeMetadata` is true (2 blocks
when true, 1 otherwise; omitting `includeMetadata` defaults it to true);
the message annotation's priority is 0.5 / 0.7 / 1.0 / 0.6 for
info / warning / error / success and the metadata block's is 0.2, all
within the range 0 to 1. -/
theorem annotatedResponse_spec (env : Env) (mt : String)
    (hmt : mt ∈ ["info", "warning", "error", "success"]) (b : Bool) (tok : Option JValue) :
    callTool env ToolName.ANNOTATED_RESPONSE
        (.obj [("messageType", .str mt), ("includeMetadata", .bool b)]) tok =
      ([], .success
        (⟨"text", "This is a " ++ mt ++ " message demonstrating annotations.",
          some ⟨priorityFor mt, audienceFor mt, some mt, none⟩⟩ ::
         if b then
           [⟨"text", "Metadata: Generated at " ++ env.isoNow,
             some ⟨0.2, ["assistant"], none, some "metadata"⟩⟩]
         else [])) ∧
    (0 : Rat) ≤ priorityFor mt ∧ priorityFor mt ≤ 1 ∧
    (0 : Rat) ≤ 0.2 ∧ (0.2 : Rat) ≤ 1 ∧
    priorityFor "info" = 0.5 ∧ priorityFor "warning" = 0.7 ∧
    priorityFor "error" = 1 ∧ priorityFor "success" = 0.6 ∧
    callTool env ToolName.ANNOTATED_RESPONSE (.obj [("messageType", .str mt)]) tok =
      callTool env ToolName.ANNOTATED_RESPONSE
        (.obj [("messageType", .str mt), ("includeMetadata", .bool true)]) tok := by
  have p1 : priorityFor "info" = 0.5 := rfl
  have p2 : priorityFor "warning" = 0.7 := rfl
  have p3 : priorityFor "error" = 1 := rfl
  have p4 : priorityFor "success" = 0.6 := rfl
  fin_cases hmt <;>
    exact ⟨rfl, by norm_num [p1, p2, p3, p4], by norm_num [p1, p2, p3, p4],
      by norm_num, by norm_num, p1, p2, p3, p4, rfl⟩

/-- Witness for C8 at `messageType = "info"`, `includeMetadata = true`. -/
theorem annotatedResponse_witness :
    callTool ⟨"", fun _ => none, "2025-01-01T00:00:00.000Z"⟩ ToolName.ANNOTATED_RESPONSE
        (.obj [("messageType", .str "info"), ("includeMetadata", .bool true)]) none =
      ([], .success
        (⟨"text", "This is a " ++ "info" ++ " message demonstrating annotations.",
          some ⟨priorityFor "info", audienceFor "info", some "info", none⟩⟩ ::
         if true then
           [⟨"text", "Metadata: Generated at " ++ "2025-01-01T00:00:00.000Z",
             some ⟨0.2, ["assistant"], none, some "metadata"⟩⟩]
         else [])) :=
  (annotatedResponse_spec ⟨"", fun _ => none, "2025-01-01T00:00:00.000Z"⟩ "info"
    (List.mem_cons_self _ _) true none).1

/-- C9: `formatAsTable` on a non-empty array whose first element is an
object takes exactly that element's keys as column headers, and renders
a cell as the empty string whenever its value is falsy (`0`, `false`,
`""`, `null`) or the key is absent (`undefined`), because the source
uses `String(row[h] || "")`. -/
theorem formatAsTable_spec :
    (∀ (fields : List (String × JValue)) (rest : List JValue),
      formatAsTable (.arr (.obj fields :: rest)) =
        String.intercalate " | " (fields.map Prod.fst) ++ "\n" ++
          String.intercalate " | " ((fields.map Prod.fst).map fun _ => "---") ++ "\n" ++
          String.join ((JValue.obj fields :: rest).map fun row =>
            String.intercalate " | " ((fields.map Prod.fst).map fun h => tableCell row h)
              ++ "\n")) ∧
    (∀ (row : JValue) (h : String) (v : JValue),
      jsGet row h = some v → jsFalsy v = true → tableCell row h = "") ∧
    (∀ (row : JValue) (h : String), jsGet row h = none → tableCell row h = "") := by
  refine ⟨fun fields rest => rfl, fun row h v hget hf => ?_, fun row h hget => ?_⟩
  · simp [tableCell, hget, hf]
  · simp [tableCell, hget]

/-- Witness for C9: a falsy cell value (the number 0) renders empty. -/
theorem formatAsTable_witness :
    tableCell (.obj [("a", .num 0), ("b", .str "x")]) "a" = "" :=
  formatAsTable_spec.2.1 (.obj [("a", .num 0), ("b", .str "x")]) "a" (.num 0) rfl rfl

/-- C3: arguments violating the `add` schema make `.parse` throw, and
the dispatcher's outcome is the structured validation error carrying the
`ZodError` issues — not a crash or a session teardown; for
`{a: "x", b: 3}` the leading issue cites field `a`. -/
theorem add_validation_spec :
    (∀ (env : Env) (args : JValue) (tok : Option JValue) (issues : List Issue),
      parseSchema AddSchema args = .error issues →
        callTool env ToolName.ADD args tok = ([], .validationError issues)) ∧
    (∃ issues : List Issue,
      parseSchema AddSchema (.obj [("a", .str "x"), ("b", .num 3)]) = .error issues ∧
      issues.head?.map Issue.path = some [PathElem.key "a"]) := by
  constructor
  · intro env args tok issues hp
    rw [show callTool env ToolName.ADD args tok =
        (match parseSchema AddSchema args with
         | .error issues => ([], .validationError issues)
         | .ok v => ([], .success [⟨"text", "The sum of " ++
             jsNumToString (getNumField v "a") ++ " and " ++
             jsNumToString (getNumField v "b") ++ " is " ++
             jsNumToString (getNumField v "a" + getNumField v "b") ++ ".", none⟩]))
      from rfl, hp]
  · exact ⟨[⟨[PathElem.key "a"], "invalid_type: expected number"⟩], rfl, rfl⟩

/-- Witness for C3 at the failing input `{a: "x", b: 3}`. -/
theorem add_validation_witness :
    callTool ⟨"", fun _ => none, ""⟩ ToolName.ADD
        (.obj [("a", .str "x"), ("b", .num 3)]) none =
      ([], .validationError [⟨[PathElem.key "a"], "invalid_type: expected number"⟩]) :=
  add_validation_spec.1 ⟨"", fun _ => none, ""⟩ (.obj [("a", .str "x"), ("b", .num 3)])
    none [⟨[PathElem.key "a"], "invalid_type: expected number"⟩] rfl

/-- The issue component of `parseFields` is exactly the concatenation of
the per-field issue blocks, in declared order. -/
theorem parseFields_issues (fieldSchemas : List (String × Schema))
    (fields : List (String × JValue)) :
    (parseFields fieldSchemas fields).1 = allFieldIssues fieldSchemas fields := by
  induction fieldSchemas with
  | nil => rfl
  | cons p rest ih =>
    obtain ⟨k, s⟩ := p
    cases hl : lookupField fields k with
    | none =>
      cases s <;>
        simp [parseFields, allFieldIssues, fieldIssues, acceptsUndefined, hl, ih]
    | some v =>
      cases hp : parseSchema s v <;>
        simp [parseFields, allFieldIssues, fieldIssues, hl, hp, ih]

/-- Head of the concatenated issue blocks: the first field whose block
is nonempty contributes the head issue. -/
theorem allFieldIssues_head (fieldSchemas : List (String × Schema))
    (fields : List (String × JValue)) (p : String × Schema)
    (hfind : fieldSchemas.find? (fun q => !(fieldIssues fields q).isEmpty) = some p) :
    (allFieldIssues fieldSchemas fields).head? = (fieldIssues fields p).head? := by
  induction fieldSchemas with
  | nil => simp at hfind
  | cons q rest ih =>
    by_cases hq : (fieldIssues fields q).isEmpty = true
    · have hnil : fieldIssues fields q = [] := by
        cases h : fieldIssues fields q
        · rfl
        · rw [h] at hq; simp at hq
      rw [List.find?_cons_of_neg _ (by simp [hq])] at hfind
      show (fieldIssues fields q ++ allFieldIssues rest fields).head? = _
      rw [hnil, List.nil_append]
      exact ih hfind
    · rw [List.find?_cons_of_pos _ (by simp [hq])] at hfind
      obtain rfl : q = p := by injection hfind
      show (fieldIssues fields q ++ allFieldIssues rest fields).head? = _
      cases h : fieldIssues fields q
      · simp [h] at hq
      · rfl

/-- A member satisfying the predicate guarantees `find?` succeeds. -/
theorem find?_isSome_of_mem {α : Type} (l : List α) (pred : α → Bool) (x : α)
    (hx : x ∈ l) (hpx : pred x = true) : ∃ y, l.find? pred = some y := by
  induction l with
  | nil => cases hx
  | cons a l ih =>
    by_cases ha : pred a = true
    · exact ⟨a, List.find?_cons_of_pos _ ha⟩
    · rcases List.mem_cons.mp hx with rfl | hx'
      · exact absurd hpx ha
      · obtain ⟨y, hy⟩ := ih hx'
        exact ⟨y, by rw [List.find?_cons_of_neg _ (by simpa using ha), hy]⟩

/-- String checks raise issues at the empty path. -/
theorem strCheckIssues_path (c : StrCheck) (x : String) (i : Issue)
    (hi : i ∈ strCheckIssues c x) : i.path = [] := by
  cases c <;> dsimp [strCheckIssues] at hi <;> split at hi <;> simp_all

/-- Numeric checks raise issues at the empty path. -/
theorem numCheckIssues_path (c : NumCheck) (q : Rat) (i : Issue)
    (hi : i ∈ numCheckIssues c q) : i.path = [] := by
  cases c <;> dsimp [numCheckIssues] at hi <;> split at hi <;> simp_all

/-- A leaf schema's parse errors are all rooted at the empty path. -/
theorem leaf_parse_issue_path (s : Schema) (hs : isLeaf s = true) (v : JValue)
    (issues : List Issue) (hp : parseSchema s v = .error issues) (i : Issue)
    (hi : i ∈ issues) : i.path = [] := by
  cases s
  case str cs =>
    cases v
    case str x =>
      simp only [parseSchema] at hp
      split at hp
      · simp at hp
      · simp only [Except.error.injEq] at hp
        subst hp
        rcases List.mem_flatMap.mp hi with ⟨c, -, hic⟩
        exact strCheckIssues_path c x i hic
    all_goals
      simp only [parseSchema, Except.error.injEq] at hp
      subst hp
      simp at hi
      simp [hi]
  case num cs =>
    cases v
    case num q =>
      simp only [parseSchema] at hp
      split at hp
      · simp at hp
      · simp only [Except.error.injEq] at hp
        subst hp
        rcases List.mem_flatMap.mp hi with ⟨c, -, hic⟩
        exact numCheckIssues_path c q i hic
    all_goals
      simp only [parseSchema, Except.error.injEq] at hp
      subst hp
      simp at hi
      simp [hi]
  case bool =>
    cases v
    case bool b =>
      simp only [parseSchema] at hp
      simp at hp
    all_goals
      simp only [parseSchema, Except.error.injEq] at hp
      subst hp
      simp at hi
      simp [hi]
  case enumOf opts =>
    cases v
    case str x =>
      simp only [parseSchema] at hp
      split at hp
      · simp at hp
      · simp only [Except.error.injEq] at hp
        subst hp
        simp at hi
        simp [hi]
    all_goals
      simp only [parseSchema, Except.error.injEq] at hp
      subst hp
      simp at hi
      simp [hi]
  all_goals simp [isLeaf] at hs

/-- A required leaf field that is absent contributes exactly the
`required` issue at its own key. -/
theorem fieldIssues_of_missing (fields : List (String × JValue)) (p : String × Schema)
    (hleaf : isLeaf p.2 = true) (hl : lookupField fields p.1 = none) :
    fieldIssues fields p = [⟨[PathElem.key p.1], "invalid_type: required"⟩] := by
  obtain ⟨k, s⟩ := p
  cases s <;> simp_all [fieldIssues, acceptsUndefined, isLeaf]

/-- Every issue contributed by a leaf field carries exactly that field's
key as its path. -/
theorem fieldIssues_path (fields : List (String × JValue)) (p : String × Schema)
    (hleaf : isLeaf p.2 = true) (i : Issue) (hi : i ∈ fieldIssues fields p) :
    i.path = [PathElem.key p.1] := by
  obtain ⟨k, s⟩ := p
  dsimp [fieldIssues] at hi
  split at hi
  · cases s <;> simp_all [acceptsUndefined, isLeaf]
  · rename_i v hl
    split at hi
    · simp at hi
    · rename_i issues hp
      rcases List.mem_map.mp (by simpa [underKey] using hi) with ⟨j, hj, rfl⟩
      have hjp : j.path = [] := leaf_parse_issue_path s hleaf v issues hp j hj
      simp [hjp]

/-- All ten declared fields of `strictTypeValidation` are required leaf
fields. -/
theorem strictFields_leaf : strictFields.all (fun p => isLeaf p.2) = true := rfl

/-- C6 (amended): for every `strictTypeValidation` invocation whose
arguments omit at least one required field, validation fails, and the
leading reported issue's field path is the first field in the schema's
declared order whose check fails (missing or invalid) — which is the
first missing required field whenever all earlier declared fields are
supplied and valid (with `{}` every field is missing, so `stringField`
is reported first); the result is a pure function of the arguments,
hence deterministic across runs. -/
theorem strict_first_offending_spec (fields : List (String × JValue))
    (hmiss : ∃ p ∈ strictFields, lookupField fields p.1 = none) :
    ∃ issues p, parseSchema StrictTypeValidationSchema (.obj fields) = .error issues ∧
      strictFields.find? (fun q => !(fieldIssues fields q).isEmpty) = some p ∧
      issues.head?.map Issue.path = some [PathElem.key p.1] := by
  obtain ⟨p0, hp0mem, hp0lk⟩ := hmiss
  have hp0leaf : isLeaf p0.2 = true := (List.all_eq_true.mp strictFields_leaf) p0 hp0mem
  have hp0ne : (fieldIssues fields p0).isEmpty = false := by
    rw [fieldIssues_of_missing fields p0 hp0leaf hp0lk]
    rfl
  obtain ⟨p, hfind⟩ :=
    find?_isSome_of_mem strictFields (fun q => !(fieldIssues fields q).isEmpty) p0 hp0mem
      (by simp [hp0ne])
  have hpmem : p ∈ strictFields := List.mem_of_find?_eq_some hfind
  have hpleaf : isLeaf p.2 = true := (List.all_eq_true.mp strictFields_leaf) p hpmem
  have hpne : fieldIssues fields p ≠ [] := by
    intro hc
    have h := List.find?_some hfind
    simp [hc] at h
  have hhead : (allFieldIssues strictFields fields).head? = (fieldIssues fields p).head? :=
    allFieldIssues_head strictFields fields p hfind
  have hall_ne : allFieldIssues strictFields fields ≠ [] := by
    intro hc
    rw [hc] at hhead
    cases hfi : fieldIssues fields p
    · exact hpne hfi
    · rw [hfi] at hhead
      simp at hhead
  have hall_isEmpty : (allFieldIssues strictFields fields).isEmpty = false := by
    cases hc : allFieldIssues strictFields fields
    · exact absurd hc hall_ne
    · rfl
  have hpf : (parseFields strictFields fields).1 = allFieldIssues strictFields fields :=
    parseFields_issues strictFields fields
  have hparse : parseSchema StrictTypeValidationSchema (.obj fields) =
      .error (allFieldIssues strictFields fields) := by
    rw [show parseSchema StrictTypeValidationSchema (.obj fields) =
        (if (parseFields strictFields fields).1.isEmpty
         then Except.ok (.obj (parseFields strictFields fields).2)
         else .error (parseFields strictFields fields).1) from rfl,
      hpf, if_neg (by simp [hall_isEmpty])]
  refine ⟨allFieldIssues strictFields fields, p, hparse, hfind, ?_⟩
  rw [hhead]
  cases hfi : fieldIssues fields p
  · exact absurd hfi hpne
  · rename_i a l
    have ha : a.path = [PathElem.key p.1] :=
      fieldIssues_path fields p hpleaf a (by rw [hfi]; exact List.mem_cons_self a l)
    simp [ha]

/-- Witness for the amended C6 at the empty argument object: every
required field is missing, and the reported path is the first declared
field. -/
theorem strict_first_offending_witness :
    ∃ issues p, parseSchema StrictTypeValidationSchema (.obj []) = .error issues ∧
      strictFields.find? (fun q => !(fieldIssues [] q).isEmpty) = some p ∧
      issues.head?.map Issue.path = some [PathElem.key p.1] :=
  strict_first_offending_spec []
    ⟨("stringField", .str [.minLen 1]), List.mem_cons_self _ _, rfl⟩

/-- Counterexample to C6 as stated: with arguments
`{stringField: 5}` the first *missing* required field in declared order
is `numberField`, but the leading issue of the thrown `ZodError` cites
`stringField` (present but of the wrong type) — the code reports the
first *offending* field, not the first missing one. -/
theorem strict_first_missing_counterexample :
    (strictFields.find?
        (fun q => (lookupField [("stringField", JValue.num 5)] q.1).isNone)).map Prod.fst =
      some "numberField" ∧
    (match parseSchema StrictTypeValidationSchema (.obj [("stringField", JValue.num 5)]) with
     | .error issues => issues.head?.map Issue.path
     | .ok _ => none) = some [PathElem.key "stringField"] ∧
    some [PathElem.key "stringField"] ≠ some [PathElem.key "numberField"] :=
  ⟨rfl, rfl, by decide⟩
